import Mathlib

/-!
Shallow embedding of the epoch coordination core of dozer
(src/dozer-core/src/epoch/manager.rs).

The `EpochManager` synchronizes N source threads around epoch closes.  All
mutation of `EpochManagerState` happens under a single mutex, and the decision
for a close is computed exactly once by the first thread past the barrier, so
an epoch close is embedded as a pure function: Phase A folds the votes into
the `Closing` state (a left fold over the serialized arrival order), Phase B
computes the `Action` and updates the persist scalars, and Phase C reads the
shared `Closed` payload out once per caller.

`SystemTime` is modelled as a natural number of seconds;
`SystemTime::duration_since(t).unwrap_or(Duration::from_secs(0))` is truncated
natural subtraction (it saturates at zero when the argument is later).
`usize` quantities are natural numbers.  The external collaborators
(`CheckpointFactory`, `CheckpointWriter`, the persist queue) are opaque: the
writer is modelled by the epoch id it is constructed with, the queue by `Unit`;
only their presence (`Option`) matters to the manager's logic.
-/

namespace DozerEpoch

/-- Wall-clock instant, in whole seconds.  Models `std::time::SystemTime`. -/
abbrev SystemTime := Nat

/-- Identity of a source participant.  Models `dozer_types::node::NodeHandle`,
which is a namespace tag plus a string id. -/
structure NodeHandle where
  ns : Option Nat
  id : String
deriving DecidableEq, Repr

/-- Per-source snapshot token.  Models `dozer_types::node::SourceState`; the
payload of `Restartable` is opaque, modelled by a natural number. -/
inductive SourceState where
  | NotStarted
  | Restartable (token : Nat)
  | NonRestartable
deriving DecidableEq, Repr

/-- Mapping from `NodeHandle` to `SourceState`.  Models
`dozer_types::node::SourceStates` (a hash map), as an association list. -/
abbrev SourceStates := List (NodeHandle × SourceState)

/-- Models `HashMap::insert`: replaces the value under an existing key,
otherwise appends the new entry. -/
def SourceStates.insert (m : SourceStates) (k : NodeHandle) (v : SourceState) :
    SourceStates :=
  if m.any (fun p => p.1 = k) then
    m.map (fun p => if p.1 = k then (k, v) else p)
  else
    m ++ [(k, v)]

/-- The commit/persist verdict.  Models `Action` in manager.rs. -/
inductive Action where
  | Commit
  | CommitAndPersist
  | Nothing
deriving DecidableEq, Repr

/-- Models `Action::should_commit`. -/
def Action.should_commit : Action → Bool
  | .Commit => true
  | .CommitAndPersist => true
  | .Nothing => false

/-- Models `Action::should_persist`. -/
def Action.should_persist : Action → Bool
  | .CommitAndPersist => true
  | _ => false

/-- Models `EpochManagerOptions`. -/
structure EpochManagerOptions where
  max_num_records_before_persist : Nat
  max_interval_before_persist_in_seconds : Nat
  enable_app_checkpoints : Bool
deriving DecidableEq, Repr

/-- Models `CheckpointWriter`: constructed from the factory handle and the
epoch id; only the id is visible to the core. -/
structure CheckpointWriter where
  epoch_id : Nat
deriving DecidableEq, Repr

/-- Models `EpochCommonInfo` (dozer-core/src/epoch/mod.rs), the commit package
inside a `ClosedEpoch`. -/
structure EpochCommonInfo where
  id : Nat
  checkpoint_writer : Option CheckpointWriter
  sink_persist_queue : Option Unit
  source_states : SourceStates
deriving DecidableEq, Repr

/-- Models `ClosedEpoch`, the per-source return value of
`wait_for_epoch_close`. -/
structure ClosedEpoch where
  should_terminate : Bool
  common_info : Option EpochCommonInfo
  decision_instant : SystemTime
deriving DecidableEq, Repr

/-- Models the `EpochManagerStateKind::Closing` payload (the barrier handle is
pure synchronization and carries no data). -/
structure ClosingState where
  epoch_id : Nat
  should_terminate : Bool
  should_commit : Bool
  source_states : SourceStates
deriving DecidableEq, Repr

/-- Models the `EpochManagerStateKind::Closed` payload (minus the
`num_source_confirmations` countdown, which only schedules the reset). -/
structure ClosedState where
  terminating : Bool
  action : Action
  epoch_id : Nat
  source_states : SourceStates
  instant : SystemTime
deriving DecidableEq, Repr

/-- Models `EpochManagerStateKind::new_closing`. -/
def new_closing (epoch_id : Nat) : ClosingState :=
  { epoch_id, should_terminate := true, should_commit := false, source_states := [] }

/-- The two scalars of `EpochManagerState` that persist across epochs and
drive the persist policy. -/
structure PersistScalars where
  next_record_index_to_persist : Nat
  last_persisted_epoch_decision_instant : SystemTime
deriving DecidableEq, Repr

/-- Models `EpochManagerState` between closes (the `kind` is always a fresh
`Closing` at that point). -/
structure EpochManagerState where
  closing : ClosingState
  scalars : PersistScalars
deriving DecidableEq, Repr

/-- Models the initial state built by `EpochManager::new`:
`next_record_index_to_persist = 0`, the last-persist instant is the start
time, and the kind is `new_closing(epoch_id, num_sources)`. -/
def initState (epoch_id : Nat) (start : SystemTime) : EpochManagerState :=
  { closing := new_closing epoch_id
    scalars := { next_record_index_to_persist := 0
                 last_persisted_epoch_decision_instant := start } }

/-- One caller's arguments to `wait_for_epoch_close`. -/
structure Vote where
  handle : NodeHandle
  source_state : SourceState
  request_termination : Bool
  request_commit : Bool
deriving DecidableEq, Repr

/-- Phase A body for one caller (manager.rs lines 173-178): AND-fold the
termination request, OR-fold the commit request, insert the source state. -/
def applyVote (c : ClosingState) (v : Vote) : ClosingState :=
  { c with
    should_terminate := c.should_terminate && v.request_termination
    should_commit := c.should_commit || v.request_commit
    source_states := c.source_states.insert v.handle v.source_state }

/-- Phase A for all callers of one close, in serialized arrival order. -/
def collectVotes (c : ClosingState) (votes : List Vote) : ClosingState :=
  votes.foldl applyVote c

/-- Models `let num_records = 0;` (manager.rs line 204): the record-count hook
of the persist policy is the literal zero. -/
def num_records : Nat := 0

/-- Models `instant.duration_since(last).unwrap_or(Duration::from_secs(0))`:
truncated subtraction saturates at zero when `instant < last`. -/
def saturatingDurationSince (instant last : SystemTime) : Nat :=
  instant - last

/-- The record-count branch of the persist condition (manager.rs lines
204-206): `num_records - next_record_index_to_persist >=
max_num_records_before_persist`. -/
def recordTrigger (opts : EpochManagerOptions) (sc : PersistScalars) : Bool :=
  decide (num_records - sc.next_record_index_to_persist ≥
    opts.max_num_records_before_persist)

/-- The elapsed-time branch of the persist condition (manager.rs lines
207-210). -/
def timeTrigger (opts : EpochManagerOptions) (sc : PersistScalars)
    (instant : SystemTime) : Bool :=
  decide (saturatingDurationSince instant sc.last_persisted_epoch_decision_instant ≥
    opts.max_interval_before_persist_in_seconds)

/-- Phase B decision (manager.rs lines 202-224): compute the `Action` from the
accumulated `should_commit` flag and the persist policy, updating the two
persist scalars exactly when persisting. -/
def decideAction (opts : EpochManagerOptions) (sc : PersistScalars)
    (should_commit : Bool) (instant : SystemTime) : Action × PersistScalars :=
  if should_commit then
    if recordTrigger opts sc || timeTrigger opts sc instant then
      (Action.CommitAndPersist,
       { next_record_index_to_persist := num_records
         last_persisted_epoch_decision_instant := instant })
    else
      (Action.Commit, sc)
  else
    (Action.Nothing, sc)

/-- Models `is_restartable` (manager.rs lines 294-298): true iff every
collected source state differs from `NonRestartable`. -/
def is_restartable (source_states : SourceStates) : Bool :=
  source_states.all (fun p => decide (p.2 ≠ SourceState.NonRestartable))

/-- Phases A and B combined: fold the votes into the closing state, decide,
and build the `Closed` payload (manager.rs lines 194-234). -/
def closeDecision (opts : EpochManagerOptions) (st : EpochManagerState)
    (votes : List Vote) (instant : SystemTime) : ClosedState × PersistScalars :=
  let c := collectVotes st.closing votes
  let r := decideAction opts st.scalars c.should_commit instant
  ({ terminating := c.should_terminate
     action := r.1
     epoch_id := c.epoch_id
     source_states := c.source_states
     instant }, r.2)

/-- The shared `Closed` payload of one close. -/
def closedStateOf (opts : EpochManagerOptions) (st : EpochManagerState)
    (votes : List Vote) (instant : SystemTime) : ClosedState :=
  (closeDecision opts st votes instant).1

/-- Phase C readout for one caller (manager.rs lines 236-270): compose the
optional `EpochCommonInfo` from the shared `Closed` payload and the options,
and form the `ClosedEpoch`. -/
def readout (opts : EpochManagerOptions) (cl : ClosedState) : ClosedEpoch :=
  let common_info :=
    if cl.action.should_commit then
      some { id := cl.epoch_id
             checkpoint_writer :=
               if cl.action.should_persist && opts.enable_app_checkpoints &&
                   is_restartable cl.source_states then
                 some { epoch_id := cl.epoch_id }
               else
                 none
             sink_persist_queue :=
               if cl.action.should_persist then some () else none
             source_states := cl.source_states }
    else
      none
  { should_terminate := cl.terminating, common_info, decision_instant := cl.instant }

/-- Epoch id for the next `Closing` state (manager.rs lines 275-282): advance
by one iff the closing epoch was committed. -/
def nextEpochId (cl : ClosedState) : Nat :=
  if cl.action.should_commit then cl.epoch_id + 1 else cl.epoch_id

/-- One full epoch close: every caller in `votes` receives its `ClosedEpoch`,
and the last confirmation resets the state to a fresh `Closing` with the next
epoch id. -/
def closeEpoch (opts : EpochManagerOptions) (st : EpochManagerState)
    (votes : List Vote) (instant : SystemTime) :
    List ClosedEpoch × EpochManagerState :=
  let cl := closedStateOf opts st votes instant
  (votes.map (fun _ => readout opts cl),
   { closing := new_closing (nextEpochId cl)
     scalars := (closeDecision opts st votes instant).2 })

/-- A sequence of epoch closes, each given by its votes and the decision
instant captured in its Phase B. -/
def runCloses (opts : EpochManagerOptions) (st : EpochManagerState)
    (closes : List (List Vote × SystemTime)) : EpochManagerState :=
  closes.foldl (fun s c => (closeEpoch opts s c.1 c.2).2) st

/-! Helper lemmas about the vote fold, the decision, and the readout. -/

theorem collectVotes_cons (c : ClosingState) (v : Vote) (vs : List Vote) :
    collectVotes c (v :: vs) = collectVotes (applyVote c v) vs := rfl

theorem collectVotes_should_terminate (votes : List Vote) (c : ClosingState) :
    (collectVotes c votes).should_terminate
      = (c.should_terminate && votes.all fun v => v.request_termination) := by
  induction votes generalizing c with
  | nil => simp [collectVotes]
  | cons v vs ih =>
      rw [collectVotes_cons, ih]
      simp [applyVote, Bool.and_assoc]

theorem collectVotes_should_commit (votes : List Vote) (c : ClosingState) :
    (collectVotes c votes).should_commit
      = (c.should_commit || votes.any fun v => v.request_commit) := by
  induction votes generalizing c with
  | nil => simp [collectVotes]
  | cons v vs ih =>
      rw [collectVotes_cons, ih]
      simp [applyVote, Bool.or_assoc]

theorem collectVotes_epoch_id (votes : List Vote) (c : ClosingState) :
    (collectVotes c votes).epoch_id = c.epoch_id := by
  induction votes generalizing c with
  | nil => simp [collectVotes]
  | cons v vs ih => rw [collectVotes_cons, ih]; rfl

theorem should_commit_of_decideAction (opts : EpochManagerOptions)
    (sc : PersistScalars) (b : Bool) (instant : SystemTime) :
    ((decideAction opts sc b instant).1).should_commit = b := by
  unfold decideAction
  cases b
  · simp [Action.should_commit]
  · simp only [if_true]
    split <;> simp [Action.should_commit]

theorem should_persist_iff (a : Action) :
    a.should_persist = true ↔ a = Action.CommitAndPersist := by
  cases a <;> simp [Action.should_persist]

theorem mem_closeEpoch_results (opts : EpochManagerOptions) (st : EpochManagerState)
    (votes : List Vote) (instant : SystemTime) (e : ClosedEpoch)
    (h : e ∈ (closeEpoch opts st votes instant).1) :
    e = readout opts (closedStateOf opts st votes instant) := by
  unfold closeEpoch at h
  simp only [List.mem_map] at h
  obtain ⟨a, -, ha⟩ := h
  exact ha.symm

/-! Claim theorems. -/

/-- C2: in the decision phase of `wait_for_epoch_close`, when the accumulated
`should_commit` flag is true, the computed `Action` is `CommitAndPersist`
exactly when `num_records - next_record_index_to_persist ≥
max_num_records_before_persist` or the saturating elapsed time since
`last_persisted_epoch_decision_instant` is at least
`max_interval_before_persist_in_seconds`; in exactly that case the two persist
scalars are updated to the current record index and the current instant, and
otherwise the `Action` is `Commit` and both scalars are unchanged. -/
theorem decision_phase_persist_policy (opts : EpochManagerOptions)
    (sc : PersistScalars) (instant : SystemTime) :
    ((decideAction opts sc true instant).1 = Action.CommitAndPersist ↔
       (num_records - sc.next_record_index_to_persist ≥
          opts.max_num_records_before_persist ∨
        saturatingDurationSince instant sc.last_persisted_epoch_decision_instant ≥
          opts.max_interval_before_persist_in_seconds)) ∧
    ((num_records - sc.next_record_index_to_persist ≥
        opts.max_num_records_before_persist ∨
      saturatingDurationSince instant sc.last_persisted_epoch_decision_instant ≥
        opts.max_interval_before_persist_in_seconds) →
      (decideAction opts sc true instant).2 =
        { next_record_index_to_persist := num_records
          last_persisted_epoch_decision_instant := instant }) ∧
    (¬(num_records - sc.next_record_index_to_persist ≥
         opts.max_num_records_before_persist ∨
       saturatingDurationSince instant sc.last_persisted_epoch_decision_instant ≥
         opts.max_interval_before_persist_in_seconds) →
      (decideAction opts sc true instant).1 = Action.Commit ∧
      (decideAction opts sc true instant).2 = sc) := by
  unfold decideAction recordTrigger timeTrigger
  by_cases h : (num_records - sc.next_record_index_to_persist ≥
      opts.max_num_records_before_persist ∨
    saturatingDurationSince instant sc.last_persisted_epoch_decision_instant ≥
      opts.max_interval_before_persist_in_seconds)
  · rcases h with h | h <;> simp [h]
  · push_neg at h
    simp [Nat.not_le.mpr h.1, Nat.not_le.mpr h.2, Nat.not_le]

/-- C2 witness: with the default options, one second past the interval and
zero records, the decision persists and the scalars are updated. -/
theorem decision_phase_persist_policy_witness :
    (decideAction ⟨100000, 60, false⟩ ⟨0, 0⟩ true 60).2 =
      ({ next_record_index_to_persist := num_records
         last_persisted_epoch_decision_instant := 60 } : PersistScalars) := by
  exact (decision_phase_persist_policy ⟨100000, 60, false⟩ ⟨0, 0⟩ 60).2.1
    (Or.inr (by decide))

/-- C8 counterexample: with `max_num_records_before_persist = 0` the
record-count branch fires even though the hook returns the literal 0, so a
`CommitAndPersist` decision is produced while the time-based trigger is false
(elapsed 0 < interval 100).  The claim's "for every value of
max_num_records_before_persist" is therefore false at this configuration. -/
theorem record_trigger_fires_at_zero_threshold :
    (decideAction ⟨0, 100, false⟩ ⟨0, 50⟩ true 50).1 = Action.CommitAndPersist ∧
    timeTrigger ⟨0, 100, false⟩ ⟨0, 50⟩ 50 = false ∧
    recordTrigger ⟨0, 100, false⟩ ⟨0, 50⟩ = true := by decide

/-- C8 amended: because the record-count hook returns the literal 0 and
`next_record_index_to_persist` is 0 in every reachable state, the record-count
trigger never fires whenever `max_num_records_before_persist ≥ 1`, and for
those configurations a `CommitAndPersist` decision can only result from the
time-based trigger. -/
theorem record_trigger_inert (opts : EpochManagerOptions) (sc : PersistScalars)
    (b : Bool) (instant : SystemTime)
    (hmax : 1 ≤ opts.max_num_records_before_persist)
    (hnext : sc.next_record_index_to_persist = 0) :
    recordTrigger opts sc = false ∧
    ((decideAction opts sc b instant).1 = Action.CommitAndPersist →
      timeTrigger opts sc instant = true) := by
  have hr : recordTrigger opts sc = false := by
    simp only [recordTrigger, num_records, hnext, Nat.sub_zero, ge_iff_le,
      decide_eq_false_iff_not, Nat.not_le]
    omega
  refine ⟨hr, fun h => ?_⟩
  unfold decideAction at h
  cases b
  · simp at h
  · rw [hr] at h
    simp only [Bool.false_or, if_true] at h
    by_contra ht
    rw [Bool.eq_false_iff.mpr ht] at h
    simp at h

/-- C8 witness: at the default threshold of 100000 records, the record trigger
is off and the persist decision at instant 60 implies the time trigger. -/
theorem record_trigger_inert_witness :
    recordTrigger ⟨100000, 60, false⟩ ⟨0, 0⟩ = false := by
  exact (record_trigger_inert ⟨100000, 60, false⟩ ⟨0, 0⟩ true 60 (by decide) rfl).1

/-- C9 counterexample: with `max_interval_before_persist_in_seconds = 0` the
time-based trigger fires on a backward clock jump (instant 50 precedes the
last persist instant 100), and the decision is `CommitAndPersist`; the
record-count trigger is off (threshold 1000).  The claim's "the time-based
trigger does not fire on a backward clock jump" is therefore false at this
configuration. -/
theorem time_trigger_fires_on_backward_jump_at_zero_interval :
    (50 : SystemTime) < 100 ∧
    timeTrigger ⟨1000, 0, false⟩ ⟨0, 100⟩ 50 = true ∧
    recordTrigger ⟨1000, 0, false⟩ ⟨0, 100⟩ = false ∧
    (decideAction ⟨1000, 0, false⟩ ⟨0, 100⟩ true 50).1 = Action.CommitAndPersist := by
  decide

/-- C9 amended: when the decision-time instant precedes
`last_persisted_epoch_decision_instant`, the persist policy treats the elapsed
duration as 0, so the time-based trigger does not fire on a backward clock
jump whenever `max_interval_before_persist_in_seconds > 0`. -/
theorem backward_clock_saturates (opts : EpochManagerOptions)
    (sc : PersistScalars) (instant : SystemTime)
    (hjump : instant < sc.last_persisted_epoch_decision_instant) :
    saturatingDurationSince instant sc.last_persisted_epoch_decision_instant = 0 ∧
    (0 < opts.max_interval_before_persist_in_seconds →
      timeTrigger opts sc instant = false) := by
  have h0 : saturatingDurationSince instant
      sc.last_persisted_epoch_decision_instant = 0 := by
    simp only [saturatingDurationSince]
    exact Nat.sub_eq_zero_of_le (Nat.le_of_lt hjump)
  refine ⟨h0, fun hpos => ?_⟩
  simp only [timeTrigger, h0, ge_iff_le, decide_eq_false_iff_not, Nat.not_le]
  exact hpos

/-- C9 witness: a backward jump from 100 to 50 under the default 60-second
interval yields a saturated elapsed duration of 0 and no time trigger. -/
theorem backward_clock_saturates_witness :
    saturatingDurationSince 50 100 = 0 ∧
    timeTrigger ⟨100000, 60, false⟩ ⟨0, 100⟩ 50 = false := by
  have h := backward_clock_saturates ⟨100000, 60, false⟩ ⟨0, 100⟩ 50 (by decide)
  exact ⟨h.1, h.2 (by decide)⟩

theorem decideAction_next_zero (opts : EpochManagerOptions) (sc : PersistScalars)
    (b : Bool) (instant : SystemTime)
    (h : sc.next_record_index_to_persist = 0) :
    (decideAction opts sc b instant).2.next_record_index_to_persist = 0 := by
  unfold decideAction
  cases b
  · simpa using h
  · simp only [if_true]
    split
    · simp [num_records]
    · simpa using h

/-- C10: along every execution from the initial state,
`next_record_index_to_persist` stays 0, and in particular it never exceeds
`num_records` (the literal 0), so the unsigned subtraction
`num_records - next_record_index_to_persist` in the persist-policy check never
underflows. -/
theorem next_record_index_never_underflows (opts : EpochManagerOptions)
    (epoch_id : Nat) (start : SystemTime)
    (closes : List (List Vote × SystemTime)) :
    (runCloses opts (initState epoch_id start)
        closes).scalars.next_record_index_to_persist = 0 ∧
    (runCloses opts (initState epoch_id start)
        closes).scalars.next_record_index_to_persist ≤ num_records := by
  have key : ∀ (cs : List (List Vote × SystemTime)) (st : EpochManagerState),
      st.scalars.next_record_index_to_persist = 0 →
      (runCloses opts st cs).scalars.next_record_index_to_persist = 0 := by
    intro cs
    induction cs with
    | nil => intro st h; simpa [runCloses] using h
    | cons c cs ih =>
        intro st h
        have hstep : ((closeEpoch opts st c.1
            c.2).2).scalars.next_record_index_to_persist = 0 := by
          unfold closeEpoch closeDecision
          exact decideAction_next_zero opts st.scalars _ c.2 h
        exact ih _ hstep
  have h0 : (runCloses opts (initState epoch_id start)
      closes).scalars.next_record_index_to_persist = 0 :=
    key closes (initState epoch_id start) rfl
  exact ⟨h0, by simp [h0, num_records]⟩

theorem readout_should_terminate (opts : EpochManagerOptions) (cl : ClosedState) :
    (readout opts cl).should_terminate = cl.terminating := rfl

theorem readout_decision_instant (opts : EpochManagerOptions) (cl : ClosedState) :
    (readout opts cl).decision_instant = cl.instant := rfl

theorem readout_common_info_isSome (opts : EpochManagerOptions) (cl : ClosedState) :
    (readout opts cl).common_info.isSome = cl.action.should_commit := by
  unfold readout
  cases hc : cl.action.should_commit <;> simp [hc]

theorem closedStateOf_terminating (opts : EpochManagerOptions)
    (st : EpochManagerState) (votes : List Vote) (instant : SystemTime) :
    (closedStateOf opts st votes instant).terminating
      = (collectVotes st.closing votes).should_terminate := rfl

theorem closedStateOf_action (opts : EpochManagerOptions)
    (st : EpochManagerState) (votes : List Vote) (instant : SystemTime) :
    (closedStateOf opts st votes instant).action
      = (decideAction opts st.scalars
          (collectVotes st.closing votes).should_commit instant).1 := rfl

theorem closedStateOf_epoch_id (opts : EpochManagerOptions)
    (st : EpochManagerState) (votes : List Vote) (instant : SystemTime) :
    (closedStateOf opts st votes instant).epoch_id = st.closing.epoch_id := by
  unfold closedStateOf closeDecision
  exact collectVotes_epoch_id votes st.closing

/-- C1: any two callers of the same epoch close receive `ClosedEpoch` values
whose `should_terminate`, `common_info` presence, `common_info` id (when
present), and `decision_instant` are component-wise equal. -/
theorem closed_epoch_uniform (opts : EpochManagerOptions)
    (st : EpochManagerState) (votes : List Vote) (instant : SystemTime)
    (e₁ e₂ : ClosedEpoch)
    (h₁ : e₁ ∈ (closeEpoch opts st votes instant).1)
    (h₂ : e₂ ∈ (closeEpoch opts st votes instant).1) :
    e₁.should_terminate = e₂.should_terminate ∧
    e₁.common_info.isSome = e₂.common_info.isSome ∧
    e₁.common_info.map (fun ci => ci.id) = e₂.common_info.map (fun ci => ci.id) ∧
    e₁.decision_instant = e₂.decision_instant := by
  rw [mem_closeEpoch_results opts st votes instant e₁ h₁,
    mem_closeEpoch_results opts st votes instant e₂ h₂]
  exact ⟨rfl, rfl, rfl, rfl⟩

/-- C1 witness: a concrete two-caller close where both memberships are
discharged by evaluation. -/
theorem closed_epoch_uniform_witness :
    (readout ⟨100000, 60, false⟩
        (closedStateOf ⟨100000, 60, false⟩ (initState 0 0)
          [⟨⟨none, "a"⟩, SourceState.NotStarted, true, false⟩,
           ⟨⟨none, "b"⟩, SourceState.Restartable 1, false, true⟩] 5)).should_terminate
      = (readout ⟨100000, 60, false⟩
          (closedStateOf ⟨100000, 60, false⟩ (initState 0 0)
            [⟨⟨none, "a"⟩, SourceState.NotStarted, true, false⟩,
             ⟨⟨none, "b"⟩, SourceState.Restartable 1, false, true⟩] 5)).should_terminate := by
  exact (closed_epoch_uniform ⟨100000, 60, false⟩ (initState 0 0)
    [⟨⟨none, "a"⟩, SourceState.NotStarted, true, false⟩,
     ⟨⟨none, "b"⟩, SourceState.Restartable 1, false, true⟩] 5 _ _
    (by decide) (by decide)).1

/-- C6: for every epoch close starting from a fresh `Closing` state, the
`should_terminate` field of every returned `ClosedEpoch` is the AND-fold,
starting from true, of the `request_termination` arguments of all callers. -/
theorem should_terminate_is_and_of_requests (opts : EpochManagerOptions)
    (n : Nat) (sc : PersistScalars) (votes : List Vote) (instant : SystemTime)
    (e : ClosedEpoch)
    (he : e ∈ (closeEpoch opts ⟨new_closing n, sc⟩ votes instant).1) :
    e.should_terminate = votes.all (fun v => v.request_termination) := by
  rw [mem_closeEpoch_results _ _ _ _ _ he, readout_should_terminate,
    closedStateOf_terminating, collectVotes_should_terminate]
  simp [new_closing]

/-- C6 witness: a concrete close where one of two callers declines
termination, so the AND-fold is false. -/
theorem should_terminate_is_and_of_requests_witness :
    (readout ⟨100000, 60, false⟩
        (closedStateOf ⟨100000, 60, false⟩ ⟨new_closing 4, ⟨0, 0⟩⟩
          [⟨⟨none, "a"⟩, SourceState.NotStarted, true, false⟩,
           ⟨⟨none, "b"⟩, SourceState.NotStarted, false, false⟩] 9)).should_terminate
      = ([⟨⟨none, "a"⟩, SourceState.NotStarted, true, false⟩,
          ⟨⟨none, "b"⟩, SourceState.NotStarted, false, false⟩] : List Vote).all
          (fun v => v.request_termination) := by
  exact should_terminate_is_and_of_requests ⟨100000, 60, false⟩ 4 ⟨0, 0⟩
    [⟨⟨none, "a"⟩, SourceState.NotStarted, true, false⟩,
     ⟨⟨none, "b"⟩, SourceState.NotStarted, false, false⟩] 9 _ (by decide)

/-- C7: for every epoch close starting from a fresh `Closing` state, the
returned `ClosedEpoch` has `common_info` present iff at least one caller
passed `request_commit = true` (the OR-fold starting from false). -/
theorem common_info_iff_any_commit (opts : EpochManagerOptions)
    (n : Nat) (sc : PersistScalars) (votes : List Vote) (instant : SystemTime)
    (e : ClosedEpoch)
    (he : e ∈ (closeEpoch opts ⟨new_closing n, sc⟩ votes instant).1) :
    e.common_info.isSome = votes.any (fun v => v.request_commit) := by
  rw [mem_closeEpoch_results _ _ _ _ _ he, readout_common_info_isSome,
    closedStateOf_action, should_commit_of_decideAction,
    collectVotes_should_commit]
  simp [new_closing]

/-- C7 witness: a concrete close where the second of two callers requests a
commit, so the OR-fold is true. -/
theorem common_info_iff_any_commit_witness :
    (readout ⟨100000, 60, false⟩
        (closedStateOf ⟨100000, 60, false⟩ ⟨new_closing 4, ⟨0, 0⟩⟩
          [⟨⟨none, "a"⟩, SourceState.NotStarted, false, false⟩,
           ⟨⟨none, "b"⟩, SourceState.NotStarted, false, true⟩] 9)).common_info.isSome
      = ([⟨⟨none, "a"⟩, SourceState.NotStarted, false, false⟩,
          ⟨⟨none, "b"⟩, SourceState.NotStarted, false, true⟩] : List Vote).any
          (fun v => v.request_commit) := by
  exact common_info_iff_any_commit ⟨100000, 60, false⟩ 4 ⟨0, 0⟩
    [⟨⟨none, "a"⟩, SourceState.NotStarted, false, false⟩,
     ⟨⟨none, "b"⟩, SourceState.NotStarted, false, true⟩] 9 _ (by decide)

theorem nextEpochId_fresh (opts : EpochManagerOptions) (n : Nat)
    (sc : PersistScalars) (votes : List Vote) (instant : SystemTime) :
    nextEpochId (closedStateOf opts ⟨new_closing n, sc⟩ votes instant)
      = (if votes.any (fun v => v.request_commit) then n + 1 else n) := by
  unfold nextEpochId
  rw [closedStateOf_action, should_commit_of_decideAction,
    collectVotes_should_commit, closedStateOf_epoch_id]
  simp [new_closing]

theorem runCloses_epoch_id_fresh (opts : EpochManagerOptions)
    (closes : List (List Vote × SystemTime)) : ∀ (n : Nat) (sc : PersistScalars),
    (runCloses opts ⟨new_closing n, sc⟩ closes).closing.epoch_id
      = n + closes.countP (fun c => c.1.any (fun v => v.request_commit)) := by
  induction closes with
  | nil => intro n sc; simp [runCloses, new_closing]
  | cons c cs ih =>
      intro n sc
      have hstep : (closeEpoch opts ⟨new_closing n, sc⟩ c.1 c.2).2
          = ⟨new_closing (if c.1.any (fun v => v.request_commit) then n + 1 else n),
             (closeDecision opts ⟨new_closing n, sc⟩ c.1 c.2).2⟩ := by
        have hd : (closeEpoch opts ⟨new_closing n, sc⟩ c.1 c.2).2
            = ⟨new_closing (nextEpochId
                 (closedStateOf opts ⟨new_closing n, sc⟩ c.1 c.2)),
               (closeDecision opts ⟨new_closing n, sc⟩ c.1 c.2).2⟩ := rfl
        rw [hd, nextEpochId_fresh]
      have hr : runCloses opts ⟨new_closing n, sc⟩ (c :: cs)
          = runCloses opts ((closeEpoch opts ⟨new_closing n, sc⟩ c.1 c.2).2) cs := rfl
      rw [hr, hstep, ih, List.countP_cons]
      by_cases h : c.1.any (fun v => v.request_commit) = true
      · simp only [h, if_true]
        omega
      · simp [h]

/-- C3: across every epoch close the epoch id advances by exactly 1 iff the
close's `Action` was `Commit` or `CommitAndPersist` (that is, iff
`should_commit` holds of the action), the id being reused otherwise; and after
any sequence of closes from the initial state, the epoch id equals the initial
id plus the number of committed closes (those in which some caller requested a
commit). -/
theorem epoch_id_advance (opts : EpochManagerOptions) :
    (∀ (st : EpochManagerState) (votes : List Vote) (instant : SystemTime),
      (closeEpoch opts st votes instant).2.closing.epoch_id
        = (if (closedStateOf opts st votes instant).action.should_commit
           then st.closing.epoch_id + 1 else st.closing.epoch_id)) ∧
    (∀ (epoch_id : Nat) (start : SystemTime)
        (closes : List (List Vote × SystemTime)),
      (runCloses opts (initState epoch_id start) closes).closing.epoch_id
        = epoch_id + closes.countP (fun c => c.1.any (fun v => v.request_commit))) := by
  constructor
  · intro st votes instant
    show nextEpochId (closedStateOf opts st votes instant) = _
    unfold nextEpochId
    rw [closedStateOf_epoch_id]
  · intro epoch_id start closes
    exact runCloses_epoch_id_fresh opts closes epoch_id ⟨0, start⟩

/-- C3 witness: two closes from initial id 7, the first committing and the
second not, leave the epoch id at 8. -/
theorem epoch_id_advance_witness :
    (runCloses ⟨100000, 60, false⟩ (initState 7 0)
        [([⟨⟨none, "a"⟩, SourceState.NotStarted, false, true⟩], 1),
         ([⟨⟨none, "a"⟩, SourceState.NotStarted, false, false⟩], 2)]).closing.epoch_id
      = 8 := by
  rw [(epoch_id_advance ⟨100000, 60, false⟩).2 7 0
    [([⟨⟨none, "a"⟩, SourceState.NotStarted, false, true⟩], 1),
     ([⟨⟨none, "a"⟩, SourceState.NotStarted, false, false⟩], 2)]]
  decide

theorem is_restartable_iff (ss : SourceStates) :
    is_restartable ss = true ↔ ∀ p ∈ ss, p.2 ≠ SourceState.NonRestartable := by
  simp [is_restartable, List.all_eq_true]

theorem readout_checkpoint_writer (opts : EpochManagerOptions) (cl : ClosedState)
    (ci : EpochCommonInfo) (h : (readout opts cl).common_info = some ci) :
    ci.checkpoint_writer
      = (if cl.action.should_persist && opts.enable_app_checkpoints &&
            is_restartable cl.source_states then
           some { epoch_id := cl.epoch_id }
         else none) := by
  unfold readout at h
  cases hc : cl.action.should_commit
  · rw [hc] at h; simp at h
  · rw [hc] at h
    simp only [eq_self_iff_true, if_true, Option.some.injEq] at h
    rw [← h]

theorem readout_sink_persist_queue (opts : EpochManagerOptions) (cl : ClosedState)
    (ci : EpochCommonInfo) (h : (readout opts cl).common_info = some ci) :
    ci.sink_persist_queue
      = (if cl.action.should_persist then some () else none) := by
  unfold readout at h
  cases hc : cl.action.should_commit
  · rw [hc] at h; simp at h
  · rw [hc] at h
    simp only [eq_self_iff_true, if_true, Option.some.injEq] at h
    rw [← h]

/-- C4: in every `ClosedEpoch` whose `common_info` is present,
`checkpoint_writer` is `Some` iff the `Action` is `CommitAndPersist`,
`enable_app_checkpoints` is true, and every collected source state is not
`NonRestartable` (both `NotStarted` and `Restartable` qualify). -/
theorem checkpoint_writer_iff (opts : EpochManagerOptions) (cl : ClosedState)
    (ci : EpochCommonInfo) (h : (readout opts cl).common_info = some ci) :
    (ci.checkpoint_writer.isSome = true ↔
      (cl.action = Action.CommitAndPersist ∧
       opts.enable_app_checkpoints = true ∧
       ∀ p ∈ cl.source_states, p.2 ≠ SourceState.NonRestartable)) := by
  rw [readout_checkpoint_writer opts cl ci h]
  constructor
  · intro hs
    split at hs
    · rename_i hcond
      rw [Bool.and_eq_true, Bool.and_eq_true] at hcond
      exact ⟨(should_persist_iff _).mp hcond.1.1, hcond.1.2,
        (is_restartable_iff _).mp hcond.2⟩
    · simp at hs
  · rintro ⟨ha, he, hr⟩
    have hcond : (cl.action.should_persist && opts.enable_app_checkpoints &&
        is_restartable cl.source_states) = true := by
      rw [Bool.and_eq_true, Bool.and_eq_true]
      exact ⟨⟨(should_persist_iff _).mpr ha, he⟩, (is_restartable_iff _).mpr hr⟩
    rw [if_pos hcond]
    rfl

/-- C4 witness: a persisting close with checkpoints enabled and both source
states restartable hands out a checkpoint writer. -/
theorem checkpoint_writer_iff_witness :
    ({ id := 3, checkpoint_writer := some ⟨3⟩, sink_persist_queue := some ()
       source_states := [(⟨none, "a"⟩, SourceState.NotStarted)] } :
        EpochCommonInfo).checkpoint_writer.isSome = true := by
  exact (checkpoint_writer_iff ⟨1, 1, true⟩
    ⟨true, Action.CommitAndPersist, 3, [(⟨none, "a"⟩, SourceState.NotStarted)], 9⟩
    _ (by decide)).mpr ⟨rfl, rfl, by simp⟩

/-- C5: in every `ClosedEpoch` whose `common_info` is present,
`sink_persist_queue` is `Some` iff the `Action` is `CommitAndPersist`,
regardless of `enable_app_checkpoints`. -/
theorem sink_persist_queue_iff (opts : EpochManagerOptions) (cl : ClosedState)
    (ci : EpochCommonInfo) (h : (readout opts cl).common_info = some ci) :
    (ci.sink_persist_queue.isSome = true ↔ cl.action = Action.CommitAndPersist) := by
  rw [readout_sink_persist_queue opts cl ci h]
  constructor
  · intro hs
    split at hs
    · rename_i hcond
      exact (should_persist_iff _).mp hcond
    · simp at hs
  · intro ha
    rw [if_pos ((should_persist_iff _).mpr ha)]
    rfl

/-- C5 witness: a persisting close with checkpoints disabled still hands out
the sink persist queue (while the checkpoint writer stays absent). -/
theorem sink_persist_queue_iff_witness :
    ({ id := 5, checkpoint_writer := none, sink_persist_queue := some ()
       source_states := [] } : EpochCommonInfo).sink_persist_queue.isSome = true := by
  exact (sink_persist_queue_iff ⟨1, 1, false⟩
    ⟨false, Action.CommitAndPersist, 5, [], 2⟩ _ (by decide)).mpr rfl

end DozerEpoch
